import Mathlib

/-!
Shallow embedding of the scvi-tools training-callback core:
`scvi/lightning/_callbacks.py` (SubSampleLabels, SaveBestState),
`scvi/external/stereoscope/_model.py` (SpatialStereoscope construction side
effects), and the KL annealing weight exercised by
`tests/core/test_core.py::test_annealing_procedures`.

Metric values are modelled as rationals extended with the two numpy
infinities (`np.Inf`, `-np.Inf`), so that `np.less` / `np.greater` on the
initial sentinels are faithful.  A module's parameter snapshot
(`state_dict`) is modelled as a list of rationals; `deepcopy` of such a
snapshot is value copy.
-/

namespace Scvi

/-- A float metric value extended with numpy's infinities (NaN never arises
on the paths modelled here). -/
inductive MVal where
  | negInf : MVal
  | fin : ℚ → MVal
  | posInf : MVal
deriving DecidableEq, Repr

/-- The strict order on extended metric values, as numpy comparisons give
it: `-inf < q < +inf`, infinities not below themselves. -/
def MVal.ltb : MVal → MVal → Bool
  | .negInf, .negInf => false
  | .negInf, _ => true
  | .fin _, .negInf => false
  | .fin a, .fin b => decide (a < b)
  | .fin _, .posInf => true
  | .posInf, _ => false

/-- The comparison operator stored in `self.monitor_op`: `np.less` or
`np.greater`. -/
inductive CmpOp where
  | less : CmpOp
  | greater : CmpOp
deriving DecidableEq, Repr

/-- Evaluation of `np.less current best` / `np.greater current best`. -/
def CmpOp.apply : CmpOp → MVal → MVal → Bool
  | .less, a, b => MVal.ltb a b
  | .greater, a, b => MVal.ltb b a

/-- A module parameter snapshot (`state_dict()`), as a flat value list. -/
def StateDict : Type := List ℚ

instance : DecidableEq StateDict := by unfold StateDict; infer_instance

/-- The mutable fields of the `SaveBestState` callback object. -/
structure SaveBestState where
  monitor : String
  verbose : Bool
  period : Nat
  epochs_since_last_check : Nat
  best_model_state : Option StateDict
  monitor_op : CmpOp
  best_model_metric_val : MVal
  mode : String
deriving DecidableEq

/-- Which branch of `SaveBestState.__init__`'s mode dispatch runs: the
`raise ValueError` guard, the `mode == "min"` branch, the `mode == "max"`
branch, or one of the two arms of the trailing `else` that inspects the
monitor name (`"acc" in monitor or monitor.startswith("fmeasure")`). -/
inductive InitBranch where
  | raiseUnknown : InitBranch
  | minBranch : InitBranch
  | maxBranch : InitBranch
  | fallbackMax : InitBranch
  | fallbackMin : InitBranch
deriving DecidableEq, Repr

/-- Python's `needle in hay` substring test (for nonempty `needle`). -/
def strContains (hay needle : String) : Bool := decide (2 ≤ (hay.splitOn needle).length)

/-- The control flow of `SaveBestState.__init__` on `mode` and `monitor`,
mirroring the guard `if mode not in ["min", "max"]: raise` followed by the
`if / elif / else` chain. -/
def saveBestStateBranch (monitor mode : String) : InitBranch :=
  if ¬ (mode = "min" ∨ mode = "max") then .raiseUnknown
  else if mode = "min" then .minBranch
  else if mode = "max" then .maxBranch
  else if strContains monitor "acc" ∨ monitor.startsWith "fmeasure" then .fallbackMax
  else .fallbackMin

/-- Embedding of `SaveBestState.__init__(monitor, mode, verbose, period)`: either the
`ValueError` message or the constructed state. -/
def saveBestStateInit (monitor mode : String) (verbose : Bool) (period : Nat) :
    Except String SaveBestState :=
  match saveBestStateBranch monitor mode with
  | .raiseUnknown => .error ("SaveBestState mode " ++ mode ++ " is unknown")
  | .minBranch => .ok ⟨monitor, verbose, period, 0, none, .less, .posInf, "min"⟩
  | .maxBranch => .ok ⟨monitor, verbose, period, 0, none, .greater, .negInf, "max"⟩
  | .fallbackMax => .ok ⟨monitor, verbose, period, 0, none, .greater, .negInf, "max"⟩
  | .fallbackMin => .ok ⟨monitor, verbose, period, 0, none, .less, .posInf, "min"⟩

/-- Embedding of `SaveBestState.check_monitor_top(current)`. -/
def check_monitor_top (s : SaveBestState) (current : MVal) : Bool :=
  s.monitor_op.apply current s.best_model_metric_val

/-- Result of one `on_epoch_end` call: the updated callback state and
whether the `RuntimeWarning` about the unavailable metric was emitted.
The source has no raising path here, so the function is total. -/
structure EpochEndResult where
  state : SaveBestState
  warned : Bool
deriving DecidableEq

/-- Embedding of `SaveBestState.on_epoch_end(trainer, pl_module)`.  Here `logs` is
`trainer.callback_metrics` as a partial map from metric name to value
(a present tensor is already `.item()`-converted to a scalar), and
`moduleState` is `pl_module.model.state_dict()` at call time; the
source's `deepcopy` of it is value copy here. -/
def on_epoch_end (s : SaveBestState) (logs : String → Option MVal)
    (moduleState : StateDict) : EpochEndResult :=
  let n := s.epochs_since_last_check + 1
  if n ≥ s.period then
    let s0 := { s with epochs_since_last_check := 0 }
    match logs s.monitor with
    | none =>
        { state := s0, warned := true }
    | some current =>
        if check_monitor_top s0 current then
          { state := { s0 with
                        best_model_state := some moduleState
                        best_model_metric_val := current }
            warned := false }
        else
          { state := s0, warned := false }
  else
    { state := { s with epochs_since_last_check := n }, warned := false }

/-- Behaviour of `torch.nn.Module.load_state_dict(state)` for the two argument shapes
that `SaveBestState.on_train_end` can produce: a captured snapshot loads
into the module, while `None` makes torch raise (`None` has no mapping
interface), an error that is incidental to torch's internals rather than a
restore-specific guard in the callback. -/
def load_state_dict (arg : Option StateDict) : Except String StateDict :=
  match arg with
  | none => .error "AttributeError: NoneType object is not a mapping"
  | some d => .ok d

/-- The argument `SaveBestState.on_train_end` hands to
`pl_module.model.load_state_dict`: always `self.best_model_state`, with no
guard for the never-captured case. -/
def on_train_end_loadArg (s : SaveBestState) : Option StateDict :=
  s.best_model_state

/-- A training session's view of the state reachable from the callback:
the module's live parameters (`pl_module.model`) and the callback. -/
structure Session where
  params : StateDict
  tracker : SaveBestState
deriving DecidableEq

/-- One `on_epoch_end` call at session level: the callback reads
`pl_module.model.state_dict()` and `trainer.callback_metrics`; live
parameters are not written by this call. -/
def sessionEpochEnd (sess : Session) (logs : String → Option MVal) : Session × Bool :=
  let r := on_epoch_end sess.tracker logs sess.params
  ({ sess with tracker := r.state }, r.warned)

/-- An optimizer step (or any other training-loop write) between epoch end
and train end: it mutates only the module's live parameters. -/
def mutateParams (f : StateDict → StateDict) (sess : Session) : Session :=
  { sess with params := f sess.params }

/-- Embedding of `SaveBestState.on_train_end(trainer, pl_module)`:
`pl_module.model.load_state_dict(self.best_model_state)`. -/
def sessionTrainEnd (sess : Session) : Except String Session :=
  (load_state_dict (on_train_end_loadArg sess.tracker)).map
    (fun p => { sess with params := p })

/-! ### SubSampleLabels and the per-epoch hook ordering

`SubSampleLabels.on_epoch_start` is one line of repository code; the loop
that fires it (pytorch_lightning's epoch loop) is an external collaborator
described by the spec, so the per-epoch event order is modelled from the
spec below. -/

/-- The training data loader, abstractly: `resample_labels()` redraws the
label-stratified subsample; `draws` counts the redraw instructions it has
received (the redraw itself is the loader's business). -/
structure DataLoader where
  draws : Nat
deriving DecidableEq

/-- Effect of `ScviDataLoader.resample_labels()` as seen from the callback: one more
redraw instruction. -/
def DataLoader.resample_labels (d : DataLoader) : DataLoader :=
  { d with draws := d.draws + 1 }

/-- The trainer state visible to `SubSampleLabels.on_epoch_start`. -/
structure Trainer where
  train_dataloader : DataLoader
  current_epoch : Nat
deriving DecidableEq

/-- Embedding of `SubSampleLabels.on_epoch_start(trainer, pl_module)`: calls
`trainer.train_dataloader.resample_labels()` and returns `None`
(`super().on_epoch_start` is a no-op hook).  `pl_module` is the module's
parameter state, returned untouched. -/
def subSampleLabels_on_epoch_start (trainer : Trainer) (pl_module : StateDict) :
    Trainer × StateDict × Unit :=
  ({ trainer with train_dataloader := trainer.train_dataloader.resample_labels },
   pl_module, ())

/-- An observable event of the training loop. -/
inductive Ev where
  | resample : Nat → Ev
  | batch : Nat → Nat → Ev
deriving DecidableEq

/-- The epoch an event belongs to. -/
def Ev.epoch : Ev → Nat
  | .resample e => e
  | .batch e _ => e

/-- Modelled from the spec: the Training Loop Driver's per-epoch sequence;
the loop driver itself (pytorch_lightning's epoch loop plus scvi's
trainer) is not under the excerpted sources.  Each epoch fires the Label
Resubsampling Hook once and only then materializes the epoch's batches. -/
def epochTrace (e nb : Nat) : List Ev :=
  Ev.resample e :: (List.range nb).map (Ev.batch e)

/-- Modelled from the spec: a training run of `n` epochs with `nb` batches
per epoch, as the concatenation of the per-epoch traces. -/
def runTrace (n nb : Nat) : List Ev :=
  (List.range n).flatMap (fun e => epochTrace e nb)

/-! ### KL annealing weight

Modelled from the spec: the `kl_weight` property of scvi's
`UnsupervisedTrainer` (the trainer module is not under the excerpted
sources; `tests/core/test_core.py::test_annealing_procedures` exercises
it).  Per the spec: if the warmup length is unset or zero the weight is
`1.0`; otherwise it is `min(1.0, elapsed / warmup_length)`. -/
def kl_weight (epoch : Nat) (n_epochs_kl_warmup : Option Nat) : ℚ :=
  match n_epochs_kl_warmup with
  | none => 1
  | some w => if w = 0 then 1 else min 1 ((epoch : ℚ) / (w : ℚ))

/-! ### SpatialStereoscope construction side effects -/

/-- The slice of an `AnnData` object the constructor touches: the number
of observations, the `.obs` columns (name to integer column), and the
scvi tensor registry (`register_tensor_from_anndata` records
tensor name, attribute name and attribute key in `adata.uns`). -/
structure AnnData where
  n_obs : Nat
  obs : List (String × List Nat)
  registry : List (String × String × String)
deriving DecidableEq

/-- Pandas-style column lookup in `.obs`. -/
def AnnData.getObs (a : AnnData) (k : String) : Option (List Nat) :=
  (a.obs.find? (fun p => p.1 = k)).map Prod.snd

/-- Pandas-style column assignment `adata.obs[k] = v` (overwrites any
previous column named `k`). -/
def AnnData.setObs (a : AnnData) (k : String) (v : List Nat) : AnnData :=
  { a with obs := (k, v) :: a.obs.filter (fun p => ¬ p.1 = k) }

/-- Effect of `scvi.data.register_tensor_from_anndata(adata, name, attr, key)` as
seen from this constructor: records the registration on the object (an
external collaborator of this core; only its registry effect matters
here). -/
def register_tensor_from_anndata (a : AnnData) (name attr key : String) : AnnData :=
  { a with registry := a.registry ++ [(name, attr, key)] }

/-- The mutations `SpatialStereoscope.__init__` performs on the caller's
`st_adata` before `super().__init__` (and hence before any training):
`st_adata.obs["_indices"] = np.arange(st_adata.n_obs)` followed by
`register_tensor_from_anndata(st_adata, "ind_x", "obs", "_indices")`. -/
def spatialStereoscopeInit (st_adata : AnnData) : AnnData :=
  register_tensor_from_anndata
    (st_adata.setObs "_indices" (List.range st_adata.n_obs))
    "ind_x" "obs" "_indices"

/-! ## Theorems -/

/-- C5.  Configuration errors are fatal at construction: any `mode`
outside `{"min", "max"}` makes `SaveBestState.__init__` raise the
`ValueError`, while `"min"` initializes the monitor with
`best_model_metric_val = np.Inf` and `monitor_op = np.less`, and `"max"`
with `-np.Inf` and `np.greater` (counter 0, no snapshot). -/
theorem C5_init_config (monitor mode : String) (verbose : Bool) (period : Nat) :
    (¬ (mode = "min" ∨ mode = "max") →
      saveBestStateInit monitor mode verbose period =
        .error ("SaveBestState mode " ++ mode ++ " is unknown")) ∧
    (mode = "min" →
      saveBestStateInit monitor mode verbose period =
        .ok ⟨monitor, verbose, period, 0, none, .less, .posInf, "min"⟩) ∧
    (mode = "max" →
      saveBestStateInit monitor mode verbose period =
        .ok ⟨monitor, verbose, period, 0, none, .greater, .negInf, "max"⟩) := by
  refine ⟨fun h => ?_, fun h => ?_, fun h => ?_⟩
  · simp [saveBestStateInit, saveBestStateBranch, h]
  · subst h; rfl
  · subst h; rfl

/-- Closed instance of `C5_init_config` at concrete inputs, with every
hypothesis discharged. -/
theorem C5_init_config_witness :
    (saveBestStateInit "elbo_validation" "median" false 1 =
        .error ("SaveBestState mode " ++ "median" ++ " is unknown")) ∧
    (saveBestStateInit "elbo_validation" "min" false 1 =
        .ok ⟨"elbo_validation", false, 1, 0, none, .less, .posInf, "min"⟩) ∧
    (saveBestStateInit "elbo_validation" "max" false 1 =
        .ok ⟨"elbo_validation", false, 1, 0, none, .greater, .negInf, "max"⟩) :=
  ⟨(C5_init_config "elbo_validation" "median" false 1).1 (by decide),
   (C5_init_config "elbo_validation" "min" false 1).2.1 rfl,
   (C5_init_config "elbo_validation" "max" false 1).2.2 rfl⟩

/-- C8.  The name-sniffing fallback of `SaveBestState.__init__` (max-mode
when the monitor name contains `"acc"` or starts with `"fmeasure"`) is
dead code: every `(monitor, mode)` pair takes the raise, `"min"` or
`"max"` branch, and consequently the monitor name never influences the
comparison operator, initial best value or stored mode. -/
theorem C8_fallback_unreachable (monitor monitor2 mode : String) (verbose : Bool)
    (period : Nat) :
    (saveBestStateBranch monitor mode = .raiseUnknown ∨
     saveBestStateBranch monitor mode = .minBranch ∨
     saveBestStateBranch monitor mode = .maxBranch) ∧
    (saveBestStateInit monitor mode verbose period).map
        (fun s => (s.monitor_op, s.best_model_metric_val, s.mode)) =
      (saveBestStateInit monitor2 mode verbose period).map
        (fun s => (s.monitor_op, s.best_model_metric_val, s.mode)) := by
  constructor
  · unfold saveBestStateBranch
    by_cases h1 : mode = "min"
    · simp [h1]
    · by_cases h2 : mode = "max" <;> simp [h1, h2]
  · unfold saveBestStateInit saveBestStateBranch
    by_cases h1 : mode = "min"
    · simp [h1, Except.map]
    · by_cases h2 : mode = "max" <;> simp [h1, h2, Except.map]

/-- C10.  The `SpatialStereoscope` constructor mutates the caller's
`st_adata` before `super().__init__` runs: afterwards `.obs` holds the new
column `"_indices" = [0, ..., n_obs - 1]`, the registry records
`("ind_x", "obs", "_indices")`, and `n_obs` is untouched. -/
theorem C10_spatial_init_mutates_adata (a : AnnData) :
    (spatialStereoscopeInit a).getObs "_indices" = some (List.range a.n_obs) ∧
    ("ind_x", "obs", "_indices") ∈ (spatialStereoscopeInit a).registry ∧
    (spatialStereoscopeInit a).n_obs = a.n_obs := by
  refine ⟨?_, ?_, rfl⟩
  · simp [spatialStereoscopeInit, register_tensor_from_anndata, AnnData.getObs,
      AnnData.setObs]
  · simp [spatialStereoscopeInit, register_tensor_from_anndata, AnnData.setObs]

/-- C6.  The KL annealing weight: for positive `warmup_length` it is the
linear ramp `min(1, epoch / warmup_length)`, monotonically non-decreasing
in the epoch counter, equal to `1` at `epoch = warmup_length` (hence from
then on); for warmup `0` or unset it is exactly `1` at every epoch. -/
theorem C6_kl_weight_ramp (e1 e2 w epoch : Nat) (hw : 0 < w) (h12 : e1 ≤ e2) :
    kl_weight e1 (some w) ≤ kl_weight e2 (some w) ∧
    kl_weight w (some w) = 1 ∧
    kl_weight epoch none = 1 ∧
    kl_weight epoch (some 0) = 1 := by
  have hw0 : w ≠ 0 := Nat.pos_iff_ne_zero.mp hw
  have hwq : (0 : ℚ) < (w : ℚ) := by exact_mod_cast hw
  refine ⟨?_, ?_, rfl, by simp [kl_weight]⟩
  · simp only [kl_weight, hw0, if_false]
    have h12q : (e1 : ℚ) ≤ (e2 : ℚ) := by exact_mod_cast h12
    exact min_le_min le_rfl (div_le_div_of_nonneg_right h12q hwq.le)
  · simp only [kl_weight, hw0, if_false]
    rw [div_self (ne_of_gt hwq)]
    simp

/-- Closed instance of `C6_kl_weight_ramp` at concrete inputs, with every
hypothesis discharged. -/
theorem C6_kl_weight_ramp_witness :
    (kl_weight 1 (some 5) ≤ kl_weight 3 (some 5) ∧
     kl_weight 5 (some 5) = 1 ∧
     kl_weight 2 none = 1 ∧
     kl_weight 2 (some 0) = 1) ∧ 0 < 5 ∧ 1 ≤ 3 :=
  ⟨C6_kl_weight_ramp 1 3 5 2 (by decide) (by decide), by decide, by decide⟩

/-- C2.  One `on_epoch_end` call of the Metric Monitor: the counter is
incremented on every call; below the period nothing else changes and no
evaluation happens; once the incremented counter reaches the period the
counter resets to `0` and, when the metric is present, the best value and
snapshot are updated exactly when the comparison improves — where, for a
mode-coherent monitor, improvement is `current < best` in min-mode and
`current > best` in max-mode. -/
theorem C2_monitor_step (s : SaveBestState) (logs : String → Option MVal)
    (m : StateDict)
    (hmode : (s.mode = "min" ∧ s.monitor_op = .less) ∨
             (s.mode = "max" ∧ s.monitor_op = .greater)) :
    (s.epochs_since_last_check + 1 < s.period →
      on_epoch_end s logs m =
        { state := { s with epochs_since_last_check := s.epochs_since_last_check + 1 }
          warned := false }) ∧
    (s.period ≤ s.epochs_since_last_check + 1 →
      (on_epoch_end s logs m).state.epochs_since_last_check = 0 ∧
      ∀ v, logs s.monitor = some v →
        ((on_epoch_end s logs m).state.best_model_state =
            if check_monitor_top s v then some m else s.best_model_state) ∧
        ((on_epoch_end s logs m).state.best_model_metric_val =
            if check_monitor_top s v then v else s.best_model_metric_val) ∧
        (check_monitor_top s v = true ↔
          (s.mode = "min" ∧ MVal.ltb v s.best_model_metric_val = true) ∨
          (s.mode = "max" ∧ MVal.ltb s.best_model_metric_val v = true))) := by
  constructor
  · intro hlt
    unfold on_epoch_end
    simp [Nat.not_le.mpr hlt]
  · intro hge
    have hper : s.epochs_since_last_check + 1 ≥ s.period := hge
    constructor
    · unfold on_epoch_end
      simp only [hper, if_true, ge_iff_le]
      rcases hv : logs s.monitor with _ | v
      · simp
      · by_cases himp : check_monitor_top { s with epochs_since_last_check := 0 } v <;>
          simp [himp]
    · intro v hv
      unfold on_epoch_end
      simp only [hper, if_true, ge_iff_le, hv]
      have hcoh : check_monitor_top { s with epochs_since_last_check := 0 } v =
          check_monitor_top s v := rfl
      refine ⟨?_, ?_, ?_⟩
      · by_cases himp : check_monitor_top s v <;> simp [hcoh, himp]
      · by_cases himp : check_monitor_top s v <;> simp [hcoh, himp]
      · rcases hmode with ⟨hm, hop⟩ | ⟨hm, hop⟩ <;>
          simp [check_monitor_top, hop, hm, CmpOp.apply]

/-- Closed instance of `C2_monitor_step` at concrete inputs, with every
hypothesis discharged: a fresh min-mode monitor with period 2 does nothing
but count on its first call, and on its second call (interval elapsed)
captures an improving value. -/
theorem C2_monitor_step_witness :
    (on_epoch_end ⟨"elbo_validation", false, 2, 0, none, .less, .posInf, "min"⟩
        (fun _ => some (.fin 4)) [3] =
      { state := ⟨"elbo_validation", false, 2, 1, none, .less, .posInf, "min"⟩
        warned := false }) ∧
    ((on_epoch_end ⟨"elbo_validation", false, 1, 0, none, .less, .posInf, "min"⟩
        (fun _ => some (.fin 4)) [3]).state.epochs_since_last_check = 0) ∧
    ((on_epoch_end ⟨"elbo_validation", false, 1, 0, none, .less, .posInf, "min"⟩
        (fun _ => some (.fin 4)) [3]).state.best_model_state =
      if check_monitor_top ⟨"elbo_validation", false, 1, 0, none, .less, .posInf, "min"⟩
          (.fin 4) then some [3] else none) ∧
    ((on_epoch_end ⟨"elbo_validation", false, 1, 0, none, .less, .posInf, "min"⟩
        (fun _ => some (.fin 4)) [3]).state.best_model_metric_val =
      if check_monitor_top ⟨"elbo_validation", false, 1, 0, none, .less, .posInf, "min"⟩
          (.fin 4) then .fin 4 else .posInf) ∧
    (check_monitor_top ⟨"elbo_validation", false, 1, 0, none, .less, .posInf, "min"⟩
        (.fin 4) = true ↔
      ("min" = "min" ∧ MVal.ltb (.fin 4) .posInf = true) ∨
      ("min" = "max" ∧ MVal.ltb .posInf (.fin 4) = true)) := by
  have h1 := C2_monitor_step ⟨"elbo_validation", false, 2, 0, none, .less, .posInf, "min"⟩
      (fun _ => some (.fin 4)) [3] (Or.inl ⟨rfl, rfl⟩)
  have h2 := C2_monitor_step ⟨"elbo_validation", false, 1, 0, none, .less, .posInf, "min"⟩
      (fun _ => some (.fin 4)) [3] (Or.inl ⟨rfl, rfl⟩)
  have h2e := h2.2 (by decide)
  have h2v := h2e.2 (.fin 4) rfl
  exact ⟨h1.1 (by decide), h2e.1, h2v.1, h2v.2.1, h2v.2.2⟩

/-- C4.  When the check interval has elapsed but the monitored metric is
absent from the epoch's logged metrics, `on_epoch_end` emits the
`RuntimeWarning` and skips the improvement evaluation: the best value and
the stored snapshot are unchanged, the call returns normally (the
embedding is a total function — the source path raises nothing), and only
the counter is reset. -/
theorem C4_missing_metric_warns_and_skips (s : SaveBestState)
    (logs : String → Option MVal) (m : StateDict)
    (hper : s.period ≤ s.epochs_since_last_check + 1)
    (hmiss : logs s.monitor = none) :
    on_epoch_end s logs m =
      { state := { s with epochs_since_last_check := 0 }, warned := true } := by
  unfold on_epoch_end
  have hper' : s.epochs_since_last_check + 1 ≥ s.period := hper
  simp [hper', hmiss]

/-- Closed instance of `C4_missing_metric_warns_and_skips` at concrete
inputs, with every hypothesis discharged. -/
theorem C4_missing_metric_witness :
    on_epoch_end ⟨"elbo_validation", false, 1, 0, some [7], .less, .fin 2, "min"⟩
        (fun _ => none) [9] =
      { state := ⟨"elbo_validation", false, 1, 0, some [7], .less, .fin 2, "min"⟩
        warned := true } :=
  C4_missing_metric_warns_and_skips
    ⟨"elbo_validation", false, 1, 0, some [7], .less, .fin 2, "min"⟩
    (fun _ => none) [9] (by decide) rfl

/-- C9.  Frame conditions of `on_epoch_end`: a non-evaluating call (the
incremented counter is still below the period) changes nothing but the
counter; on any call with the metric missing, or present but not
improving, `best_model_state` and `best_model_metric_val` are unchanged;
and the configuration fields never change on any call. -/
theorem C9_epoch_end_frame (s : SaveBestState) (logs : String → Option MVal)
    (m : StateDict) :
    (s.epochs_since_last_check + 1 < s.period →
      (on_epoch_end s logs m).state =
        { s with epochs_since_last_check := s.epochs_since_last_check + 1 } ∧
      (on_epoch_end s logs m).warned = false) ∧
    (logs s.monitor = none →
      (on_epoch_end s logs m).state.best_model_state = s.best_model_state ∧
      (on_epoch_end s logs m).state.best_model_metric_val = s.best_model_metric_val) ∧
    (∀ v, logs s.monitor = some v → check_monitor_top s v = false →
      (on_epoch_end s logs m).state.best_model_state = s.best_model_state ∧
      (on_epoch_end s logs m).state.best_model_metric_val = s.best_model_metric_val) ∧
    ((on_epoch_end s logs m).state.monitor = s.monitor ∧
     (on_epoch_end s logs m).state.verbose = s.verbose ∧
     (on_epoch_end s logs m).state.period = s.period ∧
     (on_epoch_end s logs m).state.monitor_op = s.monitor_op ∧
     (on_epoch_end s logs m).state.mode = s.mode) := by
  refine ⟨fun hlt => ?_, fun hmiss => ?_, fun v hv himp => ?_, ?_⟩
  · unfold on_epoch_end
    simp [Nat.not_le.mpr hlt]
  · unfold on_epoch_end
    by_cases hper : s.epochs_since_last_check + 1 ≥ s.period <;> simp [hper, hmiss]
  · unfold on_epoch_end
    have hcoh : check_monitor_top { s with epochs_since_last_check := 0 } v =
        check_monitor_top s v := rfl
    by_cases hper : s.epochs_since_last_check + 1 ≥ s.period <;>
      simp [hper, hv, hcoh, himp]
  · unfold on_epoch_end
    by_cases hper : s.epochs_since_last_check + 1 ≥ s.period
    · rcases hv : logs s.monitor with _ | v
      · simp [hper, hv]
      · have hcoh : check_monitor_top { s with epochs_since_last_check := 0 } v =
            check_monitor_top s v := rfl
        by_cases himp : check_monitor_top s v <;> simp [hper, hv, hcoh, himp]
    · simp [hper]

/-- Closed instance of `C9_epoch_end_frame` at concrete inputs, with the
hypotheses of its first and third conjuncts discharged: a non-evaluating
call only counts, and a non-improving evaluating call leaves the best
fields alone. -/
theorem C9_epoch_end_frame_witness :
    ((on_epoch_end ⟨"m", false, 3, 0, some [7], .less, .fin 2, "min"⟩
        (fun _ => some (.fin 1)) [9]).state =
      ⟨"m", false, 3, 1, some [7], .less, .fin 2, "min"⟩ ∧
     (on_epoch_end ⟨"m", false, 3, 0, some [7], .less, .fin 2, "min"⟩
        (fun _ => some (.fin 1)) [9]).warned = false) ∧
    ((on_epoch_end ⟨"m", false, 1, 0, some [7], .less, .fin 2, "min"⟩
        (fun _ => some (.fin 5)) [9]).state.best_model_state = some [7] ∧
     (on_epoch_end ⟨"m", false, 1, 0, some [7], .less, .fin 2, "min"⟩
        (fun _ => some (.fin 5)) [9]).state.best_model_metric_val = .fin 2) :=
  ⟨(C9_epoch_end_frame ⟨"m", false, 3, 0, some [7], .less, .fin 2, "min"⟩
      (fun _ => some (.fin 1)) [9]).1 (by decide),
   (C9_epoch_end_frame ⟨"m", false, 1, 0, some [7], .less, .fin 2, "min"⟩
      (fun _ => some (.fin 5)) [9]).2.2.1 (.fin 5) rfl (by decide)⟩

/-- C1.  Evaluation of the code at the failing input: a freshly
constructed tracker (monitored metric never improved, so
`best_model_state` is still `None`) has `on_train_end` hand
`best_model_state = None` straight to `pl_module.model.load_state_dict`
with no guard of its own — the callback raises no restore-specific error;
what terminates the session is the external library choking on `None`. -/
theorem C1_finalize_passes_absent_state :
    on_train_end_loadArg ⟨"elbo_validation", false, 1, 0, none, .less, .posInf, "min"⟩ =
      none ∧
    sessionTrainEnd ⟨[], ⟨"elbo_validation", false, 1, 0, none, .less, .posInf, "min"⟩⟩ =
      .error "AttributeError: NoneType object is not a mapping" :=
  ⟨rfl, rfl⟩

/-- C3.  The capture–restore pair is a faithful round trip: an improving
`on_epoch_end` call stores a value copy of the live parameters as the
snapshot; any further mutation of the live parameters leaves the snapshot
untouched (no aliasing, thanks to `deepcopy`); and `on_train_end` then
loads exactly the captured snapshot back into the live parameters. -/
theorem C3_capture_restore_roundtrip (sess : Session) (logs : String → Option MVal)
    (v : MVal) (f : StateDict → StateDict)
    (hper : sess.tracker.period ≤ sess.tracker.epochs_since_last_check + 1)
    (hlog : logs sess.tracker.monitor = some v)
    (himp : check_monitor_top sess.tracker v = true) :
    (sessionEpochEnd sess logs).1.tracker.best_model_state = some sess.params ∧
    (mutateParams f (sessionEpochEnd sess logs).1).tracker.best_model_state =
      some sess.params ∧
    sessionTrainEnd (mutateParams f (sessionEpochEnd sess logs).1) =
      .ok { params := sess.params
            tracker := (sessionEpochEnd sess logs).1.tracker } := by
  have hper' : sess.tracker.epochs_since_last_check + 1 ≥ sess.tracker.period := hper
  have hcoh : check_monitor_top
      { sess.tracker with epochs_since_last_check := 0 } v =
      check_monitor_top sess.tracker v := rfl
  have hsnap : (sessionEpochEnd sess logs).1.tracker.best_model_state =
      some sess.params := by
    unfold sessionEpochEnd on_epoch_end
    simp [hper', hlog, hcoh, himp]
  refine ⟨hsnap, hsnap, ?_⟩
  unfold sessionTrainEnd on_train_end_loadArg load_state_dict mutateParams
  simp only [hsnap]
  rfl

/-- Closed instance of `C3_capture_restore_roundtrip` at concrete inputs,
with every hypothesis discharged: parameters `[3, 1]` are captured on an
improving epoch, the live parameters are then overwritten, and finalize
restores `[3, 1]`. -/
theorem C3_capture_restore_roundtrip_witness :
    (sessionEpochEnd ⟨[3, 1], ⟨"m", false, 1, 0, none, .less, .posInf, "min"⟩⟩
        (fun _ => some (.fin 2))).1.tracker.best_model_state = some [3, 1] ∧
    (mutateParams (fun p => p.map (fun q => q + 1))
        (sessionEpochEnd ⟨[3, 1], ⟨"m", false, 1, 0, none, .less, .posInf, "min"⟩⟩
          (fun _ => some (.fin 2))).1).tracker.best_model_state = some [3, 1] ∧
    sessionTrainEnd (mutateParams (fun p => p.map (fun q => q + 1))
        (sessionEpochEnd ⟨[3, 1], ⟨"m", false, 1, 0, none, .less, .posInf, "min"⟩⟩
          (fun _ => some (.fin 2))).1) =
      .ok { params := [3, 1]
            tracker := (sessionEpochEnd
              ⟨[3, 1], ⟨"m", false, 1, 0, none, .less, .posInf, "min"⟩⟩
              (fun _ => some (.fin 2))).1.tracker } :=
  C3_capture_restore_roundtrip
    ⟨[3, 1], ⟨"m", false, 1, 0, none, .less, .posInf, "min"⟩⟩
    (fun _ => some (.fin 2)) (.fin 2) (fun p => p.map (fun q => q + 1))
    (by decide) rfl (by decide)

lemma runTrace_succ (n nb : Nat) :
    runTrace (n + 1) nb = runTrace n nb ++ epochTrace n nb := by
  unfold runTrace
  rw [List.range_succ, List.flatMap_append]
  simp

lemma epoch_of_mem_epochTrace {ev : Ev} {e nb : Nat} (h : ev ∈ epochTrace e nb) :
    ev.epoch = e := by
  unfold epochTrace at h
  rcases List.mem_cons.mp h with h1 | h2
  · subst h1; rfl
  · obtain ⟨k, -, rfl⟩ := List.mem_map.mp h2
    rfl

lemma epoch_lt_of_mem_runTrace {ev : Ev} {nb : Nat} :
    ∀ {n}, ev ∈ runTrace n nb → ev.epoch < n := by
  intro n
  induction n with
  | zero => intro h; simp [runTrace] at h
  | succ n ih =>
      intro h
      rw [runTrace_succ] at h
      rcases List.mem_append.mp h with h1 | h2
      · exact Nat.lt_succ_of_lt (ih h1)
      · rw [epoch_of_mem_epochTrace h2]
        exact Nat.lt_succ_self n

lemma epochTrace_resample_eq_head {e' nb m e : Nat}
    (h : (epochTrace e' nb)[m]? = some (Ev.resample e)) : m = 0 ∧ e = e' := by
  unfold epochTrace at h
  cases m with
  | zero =>
      refine ⟨rfl, ?_⟩
      simp at h
      exact h.symm
  | succ m =>
      simp only [List.getElem?_cons_succ, List.getElem?_map] at h
      rcases hr : (List.range nb)[m]? with _ | k <;> rw [hr] at h <;> simp at h

lemma epochTrace_batch_tail {e' nb m e k : Nat}
    (h : (epochTrace e' nb)[m]? = some (Ev.batch e k)) : 1 ≤ m ∧ e = e' := by
  constructor
  · cases m with
    | zero => simp [epochTrace] at h
    | succ m => exact Nat.succ_le_succ (Nat.zero_le m)
  · have hmem : Ev.batch e k ∈ epochTrace e' nb := List.getElem?_mem h
    exact epoch_of_mem_epochTrace hmem

lemma runTrace_resample_before_batch {nb e k : Nat} :
    ∀ {n i j : Nat}, (runTrace n nb)[i]? = some (Ev.resample e) →
      (runTrace n nb)[j]? = some (Ev.batch e k) → i < j := by
  intro n
  induction n with
  | zero => intro i j hi _; simp [runTrace] at hi
  | succ n ih =>
      intro i j hi hj
      rw [runTrace_succ] at hi hj
      by_cases h1 : i < (runTrace n nb).length
      · by_cases h2 : j < (runTrace n nb).length
        · rw [List.getElem?_append_left h1] at hi
          rw [List.getElem?_append_left h2] at hj
          exact ih hi hj
        · exact Nat.lt_of_lt_of_le h1 (Nat.le_of_not_lt h2)
      · have hiL := Nat.le_of_not_lt h1
        rw [List.getElem?_append_right hiL] at hi
        obtain ⟨hi0, he⟩ := epochTrace_resample_eq_head hi
        by_cases h2 : j < (runTrace n nb).length
        · rw [List.getElem?_append_left h2] at hj
          have hlt : e < n := epoch_lt_of_mem_runTrace (List.getElem?_mem hj)
          omega
        · have hjL := Nat.le_of_not_lt h2
          rw [List.getElem?_append_right hjL] at hj
          obtain ⟨hj1, -⟩ := epochTrace_batch_tail hj
          omega

lemma epochTrace_count_resample (e e' nb : Nat) :
    (epochTrace e' nb).count (Ev.resample e) = if e' = e then 1 else 0 := by
  unfold epochTrace
  rw [List.count_cons]
  have hz : ((List.range nb).map (Ev.batch e')).count (Ev.resample e) = 0 := by
    apply List.count_eq_zero.mpr
    intro hmem
    obtain ⟨x, -, hx⟩ := List.mem_map.mp hmem
    exact absurd hx (by simp)
  rw [hz]
  simp [beq_iff_eq]

lemma runTrace_count_resample (nb : Nat) :
    ∀ n e, (runTrace n nb).count (Ev.resample e) = if e < n then 1 else 0 := by
  intro n
  induction n with
  | zero => intro e; simp [runTrace]
  | succ n ih =>
      intro e
      rw [runTrace_succ, List.count_append, ih e, epochTrace_count_resample]
      split_ifs <;> omega

/-- C7.  The Label Resubsampling Hook: `on_epoch_start`'s sole effect is
one redraw instruction to the training data loader (module parameters and
the rest of the trainer are untouched, the return value is `None`); and,
in the per-epoch sequence the spec prescribes for the loop driver, the
hook fires exactly once per epoch and strictly before every batch of that
epoch is drawn. -/
theorem C7_subsample_hook_once_before_batches (t : Trainer) (m : StateDict)
    (n nb e i j k : Nat) (he : e < n) :
    (subSampleLabels_on_epoch_start t m =
      ({ current_epoch := t.current_epoch
         train_dataloader := ⟨t.train_dataloader.draws + 1⟩ }, m, ())) ∧
    (runTrace n nb).count (Ev.resample e) = 1 ∧
    ((runTrace n nb)[i]? = some (Ev.resample e) →
      (runTrace n nb)[j]? = some (Ev.batch e k) → i < j) := by
  refine ⟨rfl, ?_, fun hi hj => runTrace_resample_before_batch hi hj⟩
  rw [runTrace_count_resample]
  simp [he]

/-- Closed instance of `C7_subsample_hook_once_before_batches`, with every
hypothesis discharged: in a two-epoch, two-batch run the epoch-1 resample
sits at index 3, before the epoch-1 batches at indices 4 and 5. -/
theorem C7_subsample_hook_witness :
    (subSampleLabels_on_epoch_start ⟨⟨0⟩, 0⟩ [] =
      ({ current_epoch := 0, train_dataloader := ⟨0 + 1⟩ }, [], ())) ∧
    (runTrace 2 2).count (Ev.resample 1) = 1 ∧
    ((runTrace 2 2)[3]? = some (Ev.resample 1) →
      (runTrace 2 2)[4]? = some (Ev.batch 1 0) → 3 < 4) :=
  C7_subsample_hook_once_before_batches ⟨⟨0⟩, 0⟩ [] 2 2 1 3 4 0 (by decide)

end Scvi
